import Mathlib

/-!
Shallow embedding of `agents/disaster_agent.py` (the AidFlow ingestion
pipeline): bounding-box filter, the two normalizers, the upsert writer and
the per-cycle pipeline, together with proofs of the specification claims.

Modelling conventions:
* Python floats are embedded as rationals (`ℚ`); none of the claims probes
  binary floating-point rounding.
* `datetime` values are embedded as a civil UTC timestamp structure
  (`PyDateTime`); `datetime.fromtimestamp(ms / 1000, tz=utc)` becomes exact
  integer arithmetic on epoch milliseconds.
* Fallible Python code (`KeyError` on `props["time"]`, `IndexError` on
  `coords[1]`) is embedded with `Except PyError`.
* The Mongo collection is embedded as a list of records; `update_one` with
  `$setOnInsert` and `upsert=True` appends the record exactly when no stored
  record matches the `(coords, time)` filter.
* A possible per-record store failure inside `upsert_events`'s `try` block is
  embedded by an oracle `ok : Nat → Bool` saying whether the write attempt at
  each batch index succeeds; the `except` branch catches the failure, skips
  the `inserted += 1` line and continues with the next record.
* The two `requests.get(...).json()["features"]` fetches are inputs of
  `run_pipeline`, each an `Except` carrying either the feature list or a
  fetch or parse failure message.
-/

namespace DisasterAgent

/-- Python exceptions that the embedded code can raise. -/
inductive PyError where
  | indexError
  | keyError
  deriving DecidableEq, Repr

/-- A Python `datetime` value with `tzinfo=timezone.utc`: civil UTC fields. -/
structure PyDateTime where
  year : Int
  month : Nat
  day : Nat
  hour : Nat
  minute : Nat
  second : Nat
  microsecond : Nat
  deriving DecidableEq, Repr

/-- Gregorian leap-year rule, as used by Python's `datetime`. -/
def isLeap (y : Int) : Bool :=
  y % 4 = 0 && (y % 100 ≠ 0 || y % 400 = 0)

/-- Number of days in a month of a given year (Python `calendar` rule). -/
def daysInMonth (y : Int) (m : Nat) : Nat :=
  if m = 2 then (if isLeap y then 29 else 28)
  else if m = 4 || m = 6 || m = 9 || m = 11 then 30
  else 31

/-- Convert a count of days since the Unix epoch (1970-01-01) to a civil
Gregorian date `(year, month, day)`. -/
def civilFromDays (z : Int) : Int × Nat × Nat :=
  let z' := z + 719468
  let era := z'.fdiv 146097
  let doe := (z'.fmod 146097).toNat
  let yoe := (doe - doe / 1460 + doe / 36524 - doe / 146096) / 365
  let doy := doe - (365 * yoe + yoe / 4 - yoe / 100)
  let mp := (5 * doy + 2) / 153
  let d := doy - (153 * mp + 2) / 5 + 1
  let m := if mp < 10 then mp + 3 else mp - 9
  let y := era * 400 + yoe
  ((if m ≤ 2 then y + 1 else y), m, d)

/-- `datetime.fromtimestamp(ms / 1000, tz=timezone.utc)` on an integer count
of epoch milliseconds. -/
def fromtimestamp_ms (ms : Int) : PyDateTime :=
  let secs := ms.fdiv 1000
  let micro := (ms.fmod 1000).toNat * 1000
  let days := secs.fdiv 86400
  let sod := (secs.fmod 86400).toNat
  let ymd := civilFromDays days
  ⟨ymd.1, ymd.2.1, ymd.2.2, sod / 3600, sod % 3600 / 60, sod % 60, micro⟩

/-- Numeric value of a decimal digit character. -/
def dval (c : Char) : Nat := c.toNat - 48

/-- Characters matched by `\s` in the `re` module (ASCII whitespace). -/
def isPySpace (c : Char) : Bool :=
  c = ' ' || c = '\t' || c = '\n' || c = '\x0b' || c = '\x0c' || c = '\r'

/-- Match exactly four decimal digits (the regex `\d\d\d\d` that `strptime`
compiles for `%Y`), returning the year value and the remaining input. -/
def match4Digits : List Char → Option (Nat × List Char)
  | a :: b :: c :: d :: rest =>
    if a.isDigit && b.isDigit && c.isDigit && d.isDigit then
      some (((dval a * 10 + dval b) * 10 + dval c) * 10 + dval d, rest)
    else none
  | _ => none

/-- Candidate matches, in regex alternation order, of `strptime`'s `%m`
pattern `(1[0-2]|0[1-9]|[1-9])`. -/
def monthCands : List Char → List (Nat × List Char)
  | [] => []
  | a :: rest =>
    (match rest with
     | b :: rest2 =>
       (if a = '1' && '0' ≤ b && b ≤ '2' then [(10 + dval b, rest2)] else []) ++
       (if a = '0' && '1' ≤ b && b ≤ '9' then [(dval b, rest2)] else [])
     | [] => []) ++
    (if '1' ≤ a && a ≤ '9' then [(dval a, rest)] else [])

/-- Candidate matches of `strptime`'s `%d` pattern
`(3[01]|[12]\d|0[1-9]|[1-9])`. -/
def dayCands : List Char → List (Nat × List Char)
  | [] => []
  | a :: rest =>
    (match rest with
     | b :: rest2 =>
       (if a = '3' && (b = '0' || b = '1') then [(30 + dval b, rest2)] else []) ++
       (if (a = '1' || a = '2') && b.isDigit then [(10 * dval a + dval b, rest2)] else []) ++
       (if a = '0' && '1' ≤ b && b ≤ '9' then [(dval b, rest2)] else [])
     | [] => []) ++
    (if '1' ≤ a && a ≤ '9' then [(dval a, rest)] else [])

/-- Candidate matches of `strptime`'s `%H` pattern `(2[0-3]|[0-1]\d|\d)`. -/
def hourCands : List Char → List (Nat × List Char)
  | [] => []
  | a :: rest =>
    (match rest with
     | b :: rest2 =>
       (if a = '2' && '0' ≤ b && b ≤ '3' then [(20 + dval b, rest2)] else []) ++
       (if (a = '0' || a = '1') && b.isDigit then [(10 * dval a + dval b, rest2)] else [])
     | [] => []) ++
    (if a.isDigit then [(dval a, rest)] else [])

/-- Candidate matches of `strptime`'s `%M` pattern `([0-5]\d|\d)`. -/
def minuteCands : List Char → List (Nat × List Char)
  | [] => []
  | a :: rest =>
    (match rest with
     | b :: rest2 =>
       (if '0' ≤ a && a ≤ '5' && b.isDigit then [(10 * dval a + dval b, rest2)] else [])
     | [] => []) ++
    (if a.isDigit then [(dval a, rest)] else [])

/-- Regex backtracking: try each candidate in alternation order and keep the
first one whose continuation succeeds. -/
def tryCands {α : Type} (k : Nat → List Char → Option α) :
    List (Nat × List Char) → Option α
  | [] => none
  | (v, rest) :: tl =>
    match k v rest with
    | some r => some r
    | none => tryCands k tl

/-- The literal space in the format string compiles to `\s+`: require at
least one whitespace character and consume greedily. -/
def skipSpaces : List Char → Option (List Char)
  | [] => none
  | c :: tl => if isPySpace c then some (tl.dropWhile isPySpace) else none

/-- `datetime.strptime(s, "%Y-%m-%d %H%M").replace(tzinfo=timezone.utc)`:
`strptime` compiles the format to the anchored regex
`(\d\d\d\d)-(1[0-2]|0[1-9]|[1-9])-(3[01]|[12]\d|0[1-9]|[1-9])\s+(2[0-3]|[0-1]\d|\d)([0-5]\d|\d)`,
requires the whole input to be consumed, and then builds
`datetime(year, month, day, hour, minute)`, which raises `ValueError` unless
`1 ≤ year` and the day exists in that month. `none` stands for any raised
parse error. -/
def parseYmdHM (cs : List Char) : Option PyDateTime :=
  match match4Digits cs with
  | none => none
  | some (y, cs1) =>
    match cs1 with
    | '-' :: cs2 =>
      tryCands (fun m cs3 =>
        match cs3 with
        | '-' :: cs4 =>
          tryCands (fun d cs5 =>
            match skipSpaces cs5 with
            | some cs6 =>
              tryCands (fun hh cs7 =>
                tryCands (fun mm cs8 =>
                  if cs8.isEmpty then
                    if 1 ≤ y && d ≤ daysInMonth (Int.ofNat y) m then
                      some ⟨Int.ofNat y, m, d, hh, mm, 0, 0⟩
                    else none
                  else none) (minuteCands cs7)) (hourCands cs6)
            | none => none) (dayCands cs4)
        | _ => none) (monthCands cs2)
    | _ => none

/-- String-level wrapper around `parseYmdHM`. -/
def strptimeYmdHM (s : String) : Option PyDateTime :=
  parseYmdHM s.toList

/-- Python `f"{x}"` on an optional string: `str(None)` is the text `None`. -/
def pyStr : Option String → String
  | some s => s
  | none => "None"

/-- A GeoJSON geometry: the `coordinates` array. -/
structure Geometry where
  coordinates : List ℚ
  deriving DecidableEq, Repr

/-- Properties of a USGS (seismic) feature. `none` means the key is absent:
`props.get` then yields Python `None`, while `props["time"]` raises
`KeyError`. -/
structure UsgsProps where
  place : Option String
  mag : Option ℚ
  time : Option Int
  deriving DecidableEq, Repr

/-- A USGS (seismic) feature. -/
structure UsgsFeature where
  geometry : Geometry
  properties : UsgsProps
  deriving DecidableEq, Repr

/-- Properties of a FIRMS (thermal) feature; `none` means the key is absent. -/
structure FirmsProps where
  satellite : Option String
  brightness : Option ℚ
  acq_date : Option String
  acq_time : Option String
  deriving DecidableEq, Repr

/-- A FIRMS (thermal) feature. -/
structure FirmsFeature where
  geometry : Geometry
  properties : FirmsProps
  deriving DecidableEq, Repr

/-- A normalized disaster event record, as written to the store. -/
structure Record where
  type : String
  place : Option String
  magnitude : Option ℚ
  coords : List ℚ
  time : PyDateTime
  deriving DecidableEq, Repr

/-- `in_india(lat, lon)`: the fixed India bounding box, inclusive bounds. -/
def in_india (lat lon : ℚ) : Bool :=
  (6 ≤ lat && lat ≤ 37) && (68 ≤ lon && lon ≤ 97)

/-- `normalize_usgs(event)`. The record literal evaluates its `"coords"`
entry (`coords[0]`, `coords[1]`, possible `IndexError`) before its `"time"`
entry (`props["time"]`, possible `KeyError`); `props.get("place")` and
`props.get("mag")` never raise. -/
def normalize_usgs (event : UsgsFeature) : Except PyError Record :=
  match event.geometry.coordinates with
  | lon :: lat :: _ =>
    match event.properties.time with
    | some t =>
      .ok ⟨"earthquake", event.properties.place, event.properties.mag,
           [lon, lat], fromtimestamp_ms t⟩
    | none => .error .keyError
  | _ => .error .indexError

/-- `normalize_firms(event)`. The wall clock enters through `now`, the value
`datetime.now(timezone.utc)` would return if the date parse fails. Note the
truthiness tests in the source: `props.get("satellite") or "Unknown area"`
falls back for an empty string as well as for an absent key, and
`(float(brightness) / 100) if brightness else None` yields `None` for a zero
brightness as well as for an absent key. -/
def normalize_firms (now : PyDateTime) (event : FirmsFeature) :
    Except PyError Record :=
  let props := event.properties
  let event_time :=
    match strptimeYmdHM (pyStr props.acq_date ++ " " ++ pyStr props.acq_time) with
    | some dt => dt
    | none => now
  match event.geometry.coordinates with
  | lon :: lat :: _ =>
    .ok ⟨"fire",
         some (match props.satellite with
               | some s => if s = "" then "Unknown area" else s
               | none => "Unknown area"),
         (match props.brightness with
          | some b => if b = 0 then none else some (b / 100)
          | none => none),
         [lon, lat], event_time⟩
  | _ => .error .indexError

/-- `coll.update_one({"coords": ev["coords"], "time": ev["time"]},
{"$setOnInsert": ev}, upsert=True)`: if some stored document matches the
`(coords, time)` filter the write is a no-op, otherwise the record is
inserted. -/
def update_one_upsert (store : List Record) (ev : Record) : List Record :=
  if store.any (fun d => d.coords = ev.coords && d.time = ev.time) then store
  else store ++ [ev]

/-- Result of `upsert_events`: the store after the batch, the returned
`inserted` counter, and the trace of records whose write was attempted, in
attempt order. -/
structure UpsertResult where
  store : List Record
  inserted : Nat
  attempts : List Record
  deriving DecidableEq, Repr

/-- The loop body of `upsert_events`, carrying the batch index consulted by
the failure oracle `ok`. Every record's write is attempted; when the attempt
at index `i` fails (`ok i = false`), the exception is caught, the store is
unchanged and `inserted += 1` is skipped, and the loop continues. -/
def upsertGo (ok : Nat → Bool) : Nat → List Record → List Record → UpsertResult
  | _, store, [] => ⟨store, 0, []⟩
  | i, store, ev :: tl =>
    if ok i then
      let r := upsertGo ok (i + 1) (update_one_upsert store ev) tl
      ⟨r.store, r.inserted + 1, ev :: r.attempts⟩
    else
      let r := upsertGo ok (i + 1) store tl
      ⟨r.store, r.inserted, ev :: r.attempts⟩

/-- `upsert_events(events)` against a given store, with failure oracle `ok`. -/
def upsert_events (ok : Nat → Bool) (store : List Record)
    (events : List Record) : UpsertResult :=
  upsertGo ok 0 store events

/-- An error that aborts a pipeline cycle: a fetch or JSON-parse failure of
one of the feeds, or a Python exception from filtering or normalization. -/
inductive RunError where
  | fetchErr (msg : String)
  | pyErr (e : PyError)
  deriving DecidableEq, Repr

/-- One list comprehension
`[normalize(f) for f in data if in_india(f["geometry"]["coordinates"][1],
f["geometry"]["coordinates"][0])]`: features are visited in feed order, the
filter itself indexes `coordinates` (possible `IndexError`), and the first
exception aborts the whole comprehension. -/
def filterNormalize {α : Type} (norm : α → Except PyError Record)
    (coordsOf : α → List ℚ) : List α → Except PyError (List Record)
  | [] => .ok []
  | f :: tl =>
    match coordsOf f with
    | lon :: lat :: _ =>
      if in_india lat lon then
        match norm f with
        | .ok r =>
          match filterNormalize norm coordsOf tl with
          | .ok rs => .ok (r :: rs)
          | .error e => .error e
        | .error e => .error e
      else filterNormalize norm coordsOf tl
    | _ => .error .indexError

/-- `run_pipeline()` for one cycle. The seismic fetch runs first, then the
thermal fetch, then the seismic comprehension, then the thermal
comprehension; `all_events = earthquakes + fires` is handed to
`upsert_events`. Any fetch, parse or normalization exception propagates and
aborts the cycle before any later stage runs. -/
def run_pipeline (now : PyDateTime) (ok : Nat → Bool) (store : List Record)
    (eqFetch : Except String (List UsgsFeature))
    (fireFetch : Except String (List FirmsFeature)) :
    Except RunError UpsertResult :=
  match eqFetch with
  | .error msg => .error (.fetchErr msg)
  | .ok eq_data =>
    match fireFetch with
    | .error msg => .error (.fetchErr msg)
    | .ok fire_data =>
      match filterNormalize normalize_usgs (fun f => f.geometry.coordinates) eq_data with
      | .error e => .error (.pyErr e)
      | .ok earthquakes =>
        match filterNormalize (normalize_firms now) (fun f => f.geometry.coordinates) fire_data with
        | .error e => .error (.pyErr e)
        | .ok fires => .ok (upsert_events ok store (earthquakes ++ fires))

/-! ### Concrete data used by witnesses and counterexamples -/

/-- A well-formed seismic feature inside the bounding box
(`coords=[77.2, 28.6]`, `mag=4.5`, `time=1700000000000`). -/
def uFeatW : UsgsFeature :=
  ⟨⟨[77.2, 28.6, 10]⟩, ⟨some "Delhi", some 4.5, some 1700000000000⟩⟩

/-- The normalized record of `uFeatW`. -/
def recEW : Record :=
  ⟨"earthquake", some "Delhi", some 4.5, [77.2, 28.6], ⟨2023, 11, 14, 22, 13, 20, 0⟩⟩

/-- A well-formed thermal feature inside the bounding box. -/
def fFeatW : FirmsFeature :=
  ⟨⟨[80, 15]⟩, ⟨some "N21", some 330, some "2024-03-01", some "0530"⟩⟩

/-- The normalized record of `fFeatW`. -/
def recFW : Record :=
  ⟨"fire", some "N21", some (330 / 100), [80, 15], ⟨2024, 3, 1, 5, 30, 0, 0⟩⟩

/-- A seismic feature whose properties lack the `time` key. -/
def uNoTime : UsgsFeature := ⟨⟨[1, 2]⟩, ⟨none, none, none⟩⟩

/-- A seismic feature with `time` present but `place` and `mag` absent. -/
def uMinimal : UsgsFeature := ⟨⟨[1, 2]⟩, ⟨none, none, some 0⟩⟩

/-- A thermal feature whose `acq_date`/`acq_time` keys are absent, so the
parsed string is the unparseable text `None None`. -/
def fBad : FirmsFeature := ⟨⟨[70, 10]⟩, ⟨none, none, none, none⟩⟩

/-- A thermal feature with an empty `satellite` string and zero
`brightness` — both present, both falsy in Python. -/
def fZero : FirmsFeature :=
  ⟨⟨[77, 20]⟩, ⟨some "", some 0, some "2024-03-01", some "0530"⟩⟩

/-! ### Claims -/

/-- **C2.** The geographic filter accepts exactly the pairs with
`6.0 ≤ lat ≤ 37.0` and `68.0 ≤ lon ≤ 97.0`, boundaries included; in
particular latitude exactly 6.0 and exactly 37.0 both pass with an in-range
longitude. -/
theorem C2_in_india_characterization :
    (∀ lat lon : ℚ, in_india lat lon = true ↔
      (6 ≤ lat ∧ lat ≤ 37 ∧ 68 ≤ lon ∧ lon ≤ 97)) ∧
    in_india 6 70 = true ∧ in_india 37 70 = true := by
  refine ⟨fun lat lon => ?_, by norm_num [in_india], by norm_num [in_india]⟩
  simp [in_india, and_assoc]

/-- **C8.** Seismic normalization is deterministic and idempotent: it is a
pure function of the feature (its Lean type takes no clock, store or other
ambient state), so normalizing the same feature twice yields identical
output. -/
theorem C8_normalize_usgs_deterministic (event : UsgsFeature) :
    normalize_usgs event = normalize_usgs event := rfl

/-- **C4.** For a seismic feature with coordinates `[lon, lat, depth, ...]`
and properties `{place, mag, time = t}`, the normalizer yields
`type=earthquake`, `place` and `mag` passed through, `coords = [lon, lat]`
(depth dropped), and `time` the UTC instant of epoch-millisecond `t`; in
particular `t = 1700000000000` yields 2023-11-14T22:13:20Z. -/
theorem C4_normalize_usgs_spec (event : UsgsFeature) (lon lat depth : ℚ)
    (rest : List ℚ) (place : Option String) (mag : Option ℚ) (t : Int)
    (hc : event.geometry.coordinates = lon :: lat :: depth :: rest)
    (hp : event.properties = ⟨place, mag, some t⟩) :
    normalize_usgs event =
      .ok ⟨"earthquake", place, mag, [lon, lat], fromtimestamp_ms t⟩ ∧
    fromtimestamp_ms 1700000000000 = ⟨2023, 11, 14, 22, 13, 20, 0⟩ := by
  refine ⟨?_, by decide⟩
  simp [normalize_usgs, hc, hp]

/-- Witness for C4 at the spec's end-to-end example. -/
theorem C4_witness :
    normalize_usgs uFeatW = .ok recEW := by
  have h := C4_normalize_usgs_spec uFeatW 77.2 28.6 10 [] (some "Delhi")
    (some 4.5) 1700000000000 rfl rfl
  rw [h.1, h.2]; rfl

/-- **C9.** The seismic normalizer raises when the `time` key is absent or
the coordinates array has fewer than two elements, and absence of `place` or
`mag` never raises: those fields are just passed through as null. -/
theorem C9_usgs_required_fields (event : UsgsFeature) :
    ((event.properties.time = none ∨ event.geometry.coordinates.length < 2) →
      ∃ e, normalize_usgs event = .error e) ∧
    (∀ t : Int, event.properties.time = some t →
      2 ≤ event.geometry.coordinates.length →
      ∃ r, normalize_usgs event = .ok r ∧
        r.place = event.properties.place ∧
        r.magnitude = event.properties.mag) := by
  constructor
  · intro h
    rcases hc : event.geometry.coordinates with _ | ⟨lon, tl⟩
    · exact ⟨.indexError, by simp [normalize_usgs, hc]⟩
    · rcases tl with _ | ⟨lat, rest⟩
      · exact ⟨.indexError, by simp [normalize_usgs, hc]⟩
      · have ht : event.properties.time = none := by
          rcases h with h | h
          · exact h
          · rw [hc] at h; simp at h; exact absurd h (by omega)
        exact ⟨.keyError, by simp [normalize_usgs, hc, ht]⟩
  · intro t ht hlen
    rcases hc : event.geometry.coordinates with _ | ⟨lon, tl⟩
    · rw [hc] at hlen; simp at hlen
    · rcases tl with _ | ⟨lat, rest⟩
      · rw [hc] at hlen; simp at hlen
      · exact ⟨⟨"earthquake", event.properties.place, event.properties.mag,
          [lon, lat], fromtimestamp_ms t⟩,
          by simp [normalize_usgs, hc, ht], rfl, rfl⟩

/-- Witness for C9: a feature lacking `time` raises, a feature lacking only
`place` and `mag` succeeds with null fields. -/
theorem C9_witness :
    (∃ e, normalize_usgs uNoTime = .error e) ∧
    (∃ r, normalize_usgs uMinimal = .ok r ∧
      r.place = uMinimal.properties.place ∧
      r.magnitude = uMinimal.properties.mag) :=
  ⟨(C9_usgs_required_fields uNoTime).1 (Or.inl rfl),
   (C9_usgs_required_fields uMinimal).2 0 rfl (by decide)⟩

/-- **C3, counterexample.** A thermal feature whose `brightness` is present
but zero and whose `satellite` is present but the empty string: Python's
truthiness tests make the normalizer output a null magnitude (not
`brightness / 100 = 0`) and the fallback place `"Unknown area"` (not the
present satellite value), refuting the claim as stated. -/
theorem C3_counterexample :
    normalize_firms ⟨2025, 1, 1, 0, 0, 0, 0⟩ fZero =
      .ok ⟨"fire", some "Unknown area", none, [77, 20], ⟨2024, 3, 1, 5, 30, 0, 0⟩⟩ ∧
    fZero.properties.brightness = some 0 ∧
    (none : Option ℚ) ≠ some ((0 : ℚ) / 100) ∧
    fZero.properties.satellite = some "" ∧
    (some "Unknown area" : Option String) ≠ some "" := by
  refine ⟨rfl, rfl, by decide, rfl, by decide⟩

/-- **C3, amended.** For every thermal feature with at least two
coordinates, the normalizer outputs `type=fire`; `place` equals the
satellite property when it is present and non-empty, and the literal
`"Unknown area"` when it is absent or empty; `magnitude` equals
`brightness / 100` when brightness is present and nonzero, and is absent
when brightness is absent or zero. -/
theorem C3_normalize_firms_fields (now : PyDateTime) (event : FirmsFeature)
    (lon lat : ℚ) (rest : List ℚ)
    (hc : event.geometry.coordinates = lon :: lat :: rest) :
    ∃ r, normalize_firms now event = .ok r ∧ r.type = "fire" ∧
      (∀ s, event.properties.satellite = some s → s ≠ "" → r.place = some s) ∧
      ((event.properties.satellite = none ∨ event.properties.satellite = some "") →
        r.place = some "Unknown area") ∧
      (∀ b, event.properties.brightness = some b → b ≠ 0 →
        r.magnitude = some (b / 100)) ∧
      ((event.properties.brightness = none ∨ event.properties.brightness = some 0) →
        r.magnitude = none) := by
  refine ⟨⟨"fire",
    some (match event.properties.satellite with
          | some s => if s = "" then "Unknown area" else s
          | none => "Unknown area"),
    (match event.properties.brightness with
     | some b => if b = 0 then none else some (b / 100)
     | none => none),
    [lon, lat],
    match strptimeYmdHM (pyStr event.properties.acq_date ++ " " ++
        pyStr event.properties.acq_time) with
    | some dt => dt
    | none => now⟩, ?_, rfl, ?_, ?_, ?_, ?_⟩
  · simp only [normalize_firms, hc]
  · intro s hs hne
    simp [hs, hne]
  · intro h
    rcases h with h | h <;> simp [h]
  · intro b hb hne
    simp [hb, hne]
  · intro h
    rcases h with h | h <;> simp [h]

/-- Witness for the amended C3: present nonzero brightness and present
non-empty satellite are passed through. -/
theorem C3_witness :
    ∃ r, normalize_firms ⟨2025, 1, 1, 0, 0, 0, 0⟩ fFeatW = .ok r ∧
      r.type = "fire" ∧ r.place = some "N21" ∧
      r.magnitude = some ((330 : ℚ) / 100) := by
  obtain ⟨r, hr, hty, hsat, _, hbr, _⟩ :=
    C3_normalize_firms_fields ⟨2025, 1, 1, 0, 0, 0, 0⟩ fFeatW 80 15 [] rfl
  exact ⟨r, hr, hty, hsat "N21" rfl (by decide), hbr 330 rfl (by decide)⟩

/-- **C5.** The thermal normalizer parses `time` from
`f"{acq_date} {acq_time}"` with pattern `%Y-%m-%d %H%M` as UTC — on the
concrete well-formed input `acq_date="2024-03-01"`, `acq_time="0530"` it
yields 2024-03-01T05:30:00Z for every value of the wall clock — and when
that parse fails for any reason it does not raise: the returned record's
`time` is the current UTC instant `now`. -/
theorem C5_firms_time_parse_fallback (now : PyDateTime) (event : FirmsFeature)
    (lon lat : ℚ) (rest : List ℚ)
    (hc : event.geometry.coordinates = lon :: lat :: rest)
    (hfail : strptimeYmdHM (pyStr event.properties.acq_date ++ " " ++
      pyStr event.properties.acq_time) = none) :
    (∃ r, normalize_firms now event = .ok r ∧ r.time = now) ∧
    (∀ now2 : PyDateTime, ∃ r, normalize_firms now2 fFeatW = .ok r ∧
      r.time = ⟨2024, 3, 1, 5, 30, 0, 0⟩) := by
  constructor
  · refine ⟨⟨"fire",
      some (match event.properties.satellite with
            | some s => if s = "" then "Unknown area" else s
            | none => "Unknown area"),
      (match event.properties.brightness with
       | some b => if b = 0 then none else some (b / 100)
       | none => none),
      [lon, lat], now⟩, ?_, rfl⟩
    simp only [normalize_firms, hc, hfail]
  · intro now2
    exact ⟨⟨"fire", some "N21", some (330 / 100), [80, 15],
      ⟨2024, 3, 1, 5, 30, 0, 0⟩⟩, rfl, rfl⟩

/-- Witness for C5: a feature whose `acq_date`/`acq_time` keys are absent
formats to the unparseable string `None None`, and the record's time is the
supplied current instant. -/
theorem C5_witness :
    ∃ r, normalize_firms ⟨2025, 6, 1, 12, 0, 0, 0⟩ fBad = .ok r ∧
      r.time = ⟨2025, 6, 1, 12, 0, 0, 0⟩ :=
  (C5_firms_time_parse_fallback ⟨2025, 6, 1, 12, 0, 0, 0⟩ fBad 70 10 [] rfl
    (by decide)).1

/-- A conditional upsert whose filter already matches some stored document
is a no-op. -/
theorem update_one_upsert_of_match (store : List Record) (ev : Record)
    (h : store.any (fun d => d.coords = ev.coords && d.time = ev.time) = true) :
    update_one_upsert store ev = store := by
  simp [update_one_upsert, h]

/-- A conditional upsert whose filter matches no stored document appends the
record. -/
theorem update_one_upsert_of_no_match (store : List Record) (ev : Record)
    (h : store.any (fun d => d.coords = ev.coords && d.time = ev.time) = false) :
    update_one_upsert store ev = store ++ [ev] := by
  simp [update_one_upsert, h]

/-- **C6.** `(coords, time)` acts as the identity key at write time: writing
`ev` and then any `ev2` with the same key leaves the store exactly as after
the first write (set-on-insert: the second write is a no-op); if the store
held no record with that key beforehand, the records matching the key after
both writes are exactly `[ev]`, the first write's payload; and a store in
which no two records share a key keeps that property across a write. -/
theorem C6_upsert_key_identity (store : List Record) (ev ev2 : Record)
    (hc : ev2.coords = ev.coords) (ht : ev2.time = ev.time) :
    update_one_upsert (update_one_upsert store ev) ev2 =
      update_one_upsert store ev ∧
    (store.all (fun d => !(d.coords = ev.coords && d.time = ev.time)) = true →
      (update_one_upsert (update_one_upsert store ev) ev2).filter
        (fun d => d.coords = ev.coords && d.time = ev.time) = [ev]) ∧
    (List.Pairwise (fun a b => ¬(a.coords = b.coords ∧ a.time = b.time)) store →
      List.Pairwise (fun a b => ¬(a.coords = b.coords ∧ a.time = b.time))
        (update_one_upsert store ev)) := by
  have hpred : (fun d : Record => decide (d.coords = ev2.coords) &&
      decide (d.time = ev2.time)) =
      (fun d : Record => decide (d.coords = ev.coords) &&
      decide (d.time = ev.time)) := by
    funext d; rw [hc, ht]
  have hnoop : update_one_upsert (update_one_upsert store ev) ev2 =
      update_one_upsert store ev := by
    cases h : store.any (fun d => d.coords = ev.coords && d.time = ev.time) with
    | true =>
      rw [update_one_upsert_of_match store ev h]
      apply update_one_upsert_of_match
      rw [show (fun d : Record => decide (d.coords = ev2.coords) &&
        decide (d.time = ev2.time)) = _ from hpred]
      exact h
    | false =>
      rw [update_one_upsert_of_no_match store ev h]
      apply update_one_upsert_of_match
      rw [show (fun d : Record => decide (d.coords = ev2.coords) &&
        decide (d.time = ev2.time)) = _ from hpred]
      simp [List.any_append]
  refine ⟨hnoop, ?_, ?_⟩
  · intro hall
    rw [hnoop]
    have hnone : store.any
        (fun d => d.coords = ev.coords && d.time = ev.time) = false := by
      rw [List.any_eq_false]
      intro d hd
      have h2 := (List.all_eq_true.mp hall) d hd
      simp only [Bool.not_eq_true', Bool.and_eq_false_iff, decide_eq_false_iff_not] at h2
      simp only [Bool.and_eq_true, decide_eq_true_eq, not_and]
      intro hcd htd
      rcases h2 with h2 | h2
      · exact h2 hcd
      · exact h2 htd
    rw [update_one_upsert_of_no_match store ev hnone, List.filter_append]
    have h1 : store.filter
        (fun d => d.coords = ev.coords && d.time = ev.time) = [] := by
      rw [List.filter_eq_nil_iff]
      intro d hd
      have h2 := (List.all_eq_true.mp hall) d hd
      simp only [Bool.not_eq_true', Bool.and_eq_false_iff, decide_eq_false_iff_not] at h2
      simp only [Bool.and_eq_true, decide_eq_true_eq, not_and]
      intro hcd htd
      rcases h2 with h2 | h2
      · exact h2 hcd
      · exact h2 htd
    rw [h1]
    simp
  · intro hpw
    cases h : store.any (fun d => d.coords = ev.coords && d.time = ev.time) with
    | true => rw [update_one_upsert_of_match store ev h]; exact hpw
    | false =>
      rw [update_one_upsert_of_no_match store ev h]
      rw [List.pairwise_append]
      refine ⟨hpw, List.pairwise_singleton _ _, ?_⟩
      intro a ha b hb
      have hane := (List.any_eq_false.mp h) a ha
      rw [List.mem_singleton.mp hb]
      intro hab
      exact hane (by simp [hab.1, hab.2])

/-- Witness for C6: a double write of the same record against an empty
store stores it exactly once. -/
theorem C6_witness :
    (update_one_upsert (update_one_upsert [] recEW) recEW).filter
      (fun d => d.coords = recEW.coords && d.time = recEW.time) = [recEW] :=
  (C6_upsert_key_identity [] recEW recEW rfl rfl).2.1 (by decide)

/-- A first record for the three-record batch scenario. -/
def recAW : Record :=
  ⟨"earthquake", none, none, [1, 1], ⟨2024, 1, 1, 0, 0, 0, 0⟩⟩

/-- A second record with a key distinct from `recAW`'s. -/
def recBW : Record :=
  ⟨"earthquake", none, none, [2, 2], ⟨2024, 1, 1, 0, 0, 0, 0⟩⟩

/-- A third record with a key distinct from the other two. -/
def recCW : Record :=
  ⟨"fire", none, none, [3, 3], ⟨2024, 1, 1, 0, 0, 0, 0⟩⟩

/-- A failure oracle under which only the write at batch index 1 (the second
record) fails. -/
def failSecond : Nat → Bool := fun i => i ≠ 1

/-- Structural characterization of the upsert loop: every record is
attempted in order; the counter counts the indices whose write succeeded;
and the final store is the fold of the conditional upsert over exactly the
records whose write succeeded, in order. -/
theorem upsertGo_spec (ok : Nat → Bool) :
    ∀ (events : List Record) (i : Nat) (store : List Record),
    (upsertGo ok i store events).attempts = events ∧
    (upsertGo ok i store events).inserted =
      ((List.range' i events.length).filter ok).length ∧
    (upsertGo ok i store events).store =
      ((((List.range' i events.length).zip events).filter
        (fun p => ok p.1)).map Prod.snd).foldl update_one_upsert store := by
  intro events
  induction events with
  | nil => intro i store; exact ⟨rfl, rfl, rfl⟩
  | cons ev tl ih =>
    intro i store
    rw [List.length_cons, List.range'_succ, List.zip_cons_cons]
    cases h : ok i with
    | true =>
      have h1 := ih (i + 1) (update_one_upsert store ev)
      refine ⟨?_, ?_, ?_⟩
      · simp only [upsertGo, h, if_true]
        exact congrArg (ev :: ·) h1.1
      · simp only [upsertGo, h, if_true, List.filter_cons, h1.2.1]
        simp [h]
      · simp only [upsertGo, h, if_true, List.filter_cons, h1.2.2]
        simp [h]
    | false =>
      have h1 := ih (i + 1) store
      refine ⟨?_, ?_, ?_⟩
      · simp only [upsertGo, h, if_false, Bool.false_eq_true]
        exact congrArg (ev :: ·) h1.1
      · simp only [upsertGo, h, List.filter_cons, h1.2.1]
        simp [h]
      · simp only [upsertGo, h, List.filter_cons, h1.2.2]
        simp [h]

/-- **C1, counterexample.** In a 3-record batch whose second write fails,
all three writes are attempted and records 1 and 3 are stored, but the
returned count is 2 — the `inserted += 1` line sits inside the `try` block
after the write, so a caught failure skips it — refuting "the returned
count equals the number of records attempted" (which would be 3). -/
theorem C1_counterexample :
    (upsert_events failSecond [] [recAW, recBW, recCW]).attempts.length = 3 ∧
    (upsert_events failSecond [] [recAW, recBW, recCW]).store = [recAW, recCW] ∧
    (upsert_events failSecond [] [recAW, recBW, recCW]).inserted = 2 ∧
    (upsert_events failSecond [] [recAW, recBW, recCW]).inserted ≠ 3 :=
  ⟨rfl, by decide, rfl, by decide⟩

/-- **C1, amended.** The upsert writer attempts a write for every record of
the batch, in order; a failed write is caught and does not abort the batch —
the final store is the fold of the conditional upsert over exactly the
records whose write succeeded, so later records are still written — and the
returned count equals the number of records whose write attempt succeeded
(a duplicate no-op write succeeds and is counted the same as a true
insert; a write that raises is not counted). -/
theorem C1_upsert_batch_resilience (ok : Nat → Bool) (store : List Record)
    (events : List Record) :
    (upsert_events ok store events).attempts = events ∧
    (upsert_events ok store events).inserted =
      ((List.range events.length).filter ok).length ∧
    (upsert_events ok store events).store =
      ((((List.range events.length).zip events).filter
        (fun p => ok p.1)).map Prod.snd).foldl update_one_upsert store := by
  have h := upsertGo_spec ok events 0 store
  rw [List.range_eq_range']
  exact h

/-- **C7.** A fetch (or parse) failure of either feed aborts the cycle
entirely: a seismic-feed failure yields the error before the thermal feed is
even examined (the result is the same for every thermal fetch outcome), and
a thermal-feed failure yields the error before any filtering, normalization
or write, whatever the seismic data contained. -/
theorem C7_fetch_failure_aborts_cycle :
    (∀ (now : PyDateTime) (ok : Nat → Bool) (store : List Record)
      (msg : String) (fireFetch : Except String (List FirmsFeature)),
      run_pipeline now ok store (.error msg) fireFetch =
        .error (.fetchErr msg)) ∧
    (∀ (now : PyDateTime) (ok : Nat → Bool) (store : List Record)
      (eqData : List UsgsFeature) (msg : String),
      run_pipeline now ok store (.ok eqData) (.error msg) =
        .error (.fetchErr msg)) :=
  ⟨fun _ _ _ _ _ => rfl, fun _ _ _ _ _ => rfl⟩

/-- The comprehension's filter condition as a pure predicate on a
coordinates array with at least two entries. -/
def featureInBox (coords : List ℚ) : Bool :=
  match coords with
  | lon :: lat :: _ => in_india lat lon
  | _ => false

/-- When every feature has at least two coordinates and normalizes
successfully, the comprehension returns exactly the in-box features, in feed
order, mapped through the normalizer. -/
theorem filterNormalize_eq_map {α : Type} (norm : α → Except PyError Record)
    (coordsOf : α → List ℚ) (g : α → Record) :
    ∀ fs : List α, (∀ f ∈ fs, 2 ≤ (coordsOf f).length) →
    (∀ f ∈ fs, norm f = .ok (g f)) →
    filterNormalize norm coordsOf fs =
      .ok ((fs.filter (fun f => featureInBox (coordsOf f))).map g) := by
  intro fs
  induction fs with
  | nil => intro _ _; rfl
  | cons f tl ih =>
    intro h2 hn
    have ih2 := ih (fun x hx => h2 x (List.mem_cons_of_mem f hx))
      (fun x hx => hn x (List.mem_cons_of_mem f hx))
    rcases hc : coordsOf f with _ | ⟨lon, tl2⟩
    · exact absurd (h2 f (List.mem_cons_self f tl)) (by rw [hc]; simp)
    · rcases tl2 with _ | ⟨lat, rest⟩
      · exact absurd (h2 f (List.mem_cons_self f tl)) (by rw [hc]; simp)
      · have hnf := hn f (List.mem_cons_self f tl)
        cases hb : in_india lat lon with
        | true =>
          simp only [filterNormalize, hc, hb, if_true, hnf, ih2,
            List.filter_cons, featureInBox]
          simp [hb]
        | false =>
          simp only [filterNormalize, hc, hb, ih2, List.filter_cons,
            featureInBox]
          simp [hb, ih2]

/-- **C10.** Within one successful cycle the pipeline preserves ordering:
the batch handed to the writer is the in-box seismic records in feed order
followed by the in-box thermal records in feed order, and the writer's
attempted writes are exactly that batch, in that order. -/
theorem C10_pipeline_write_order (now : PyDateTime) (ok : Nat → Bool)
    (store : List Record) (eqData : List UsgsFeature)
    (fireData : List FirmsFeature) (gE : UsgsFeature → Record)
    (gF : FirmsFeature → Record)
    (hlE : ∀ f ∈ eqData, 2 ≤ f.geometry.coordinates.length)
    (hlF : ∀ f ∈ fireData, 2 ≤ f.geometry.coordinates.length)
    (hnE : ∀ f ∈ eqData, normalize_usgs f = .ok (gE f))
    (hnF : ∀ f ∈ fireData, normalize_firms now f = .ok (gF f)) :
    run_pipeline now ok store (.ok eqData) (.ok fireData) =
      .ok (upsert_events ok store
        ((eqData.filter (fun f => featureInBox f.geometry.coordinates)).map gE ++
         (fireData.filter (fun f => featureInBox f.geometry.coordinates)).map gF)) ∧
    (upsert_events ok store
        ((eqData.filter (fun f => featureInBox f.geometry.coordinates)).map gE ++
         (fireData.filter (fun f => featureInBox f.geometry.coordinates)).map gF)).attempts =
      (eqData.filter (fun f => featureInBox f.geometry.coordinates)).map gE ++
      (fireData.filter (fun f => featureInBox f.geometry.coordinates)).map gF := by
  have e1 := filterNormalize_eq_map normalize_usgs
    (fun f => f.geometry.coordinates) gE eqData hlE hnE
  have e2 := filterNormalize_eq_map (normalize_firms now)
    (fun f => f.geometry.coordinates) gF fireData hlF hnF
  constructor
  · simp only [run_pipeline, e1, e2]
  · exact (upsertGo_spec ok _ 0 store).1

/-- An in-box seismic feature with integer coordinates, for the C10
witness. -/
def uFeatX : UsgsFeature := ⟨⟨[77, 28, 10]⟩, ⟨some "Delhi", some 4, some 0⟩⟩

/-- The normalized record of `uFeatX`. -/
def recEX : Record :=
  ⟨"earthquake", some "Delhi", some 4, [77, 28], ⟨1970, 1, 1, 0, 0, 0, 0⟩⟩

/-- Witness for C10: one in-box feature per feed; the seismic record is
written first, the thermal record second. -/
theorem C10_witness :
    run_pipeline ⟨2025, 1, 1, 0, 0, 0, 0⟩ (fun _ => true) []
        (.ok [uFeatX]) (.ok [fFeatW]) =
      .ok (upsert_events (fun _ => true) [] [recEX, recFW]) ∧
    (upsert_events (fun _ => true) [] [recEX, recFW]).attempts =
      [recEX, recFW] := by
  have hnE : ∀ f ∈ [uFeatX], normalize_usgs f = .ok ((fun _ => recEX) f) := by
    intro f hf; rw [List.mem_singleton] at hf; subst hf; rfl
  have hnF : ∀ f ∈ [fFeatW],
      normalize_firms ⟨2025, 1, 1, 0, 0, 0, 0⟩ f = .ok ((fun _ => recFW) f) := by
    intro f hf; rw [List.mem_singleton] at hf; subst hf; rfl
  have h := C10_pipeline_write_order ⟨2025, 1, 1, 0, 0, 0, 0⟩ (fun _ => true)
    [] [uFeatX] [fFeatW] (fun _ => recEX) (fun _ => recFW)
    (by decide) (by decide) hnE hnF
  exact ⟨h.1, h.2⟩

end DisasterAgent
